import Mathlib

/-!
Verification of the gdpc write-path client (`interfaceUtils.py`) and the
chunk-cache reader (`gdpc/worldLoader.py`) against their natural-language
specification.

The Python source is shallowly embedded: the `Interface` class becomes the
structure `Interface` below, HTTP calls become entries of a `Put` log, and the
transport itself is an oracle `tr : Nat → Option String` mapping the index of
each put attempt to `some responseText` on success or `none` when the attempt
raises `ConnectionError`.  Machine integers do not overflow in the modelled
code paths (Python ints are unbounded), so coordinates are `Int` and sizes are
`Nat`.
-/

namespace Gdpc

/-- One `(x, y, z, block)` tuple: both the argument tuple of a `setBlock` call
and an element of the pending write buffer (the source uses 4-tuples). -/
structure BlockEntry where
  x : Int
  y : Int
  z : Int
  block : String
deriving DecidableEq, Repr

/-- The mutable state of `interfaceUtils.Interface`: an offset, the private
`__buffering` flag, the buffer limit and the pending buffer.  Mirrors the
fields assigned in `Interface.__init__`. -/
structure Interface where
  offset : Int × Int × Int
  buffering : Bool
  bufferlimit : Nat
  buffer : List BlockEntry
deriving DecidableEq, Repr

/-- `Interface.__init__(self, offset=(0,0,0), buffering=False, bufferlimit=4096)`:
the body assigns `self.__buffering = False` and `self.bufferlimit = 4096`
regardless of the `buffering` and `bufferlimit` arguments, which are unused. -/
def mkInterface (offset : Int × Int × Int) (buffering : Bool) (bufferlimit : Nat) :
    Interface :=
  ⟨offset, false, 4096, []⟩

/-- `Interface.local2global` restricted to calls where all three coordinates
are given (the only form used on the block write path). -/
def Interface.local2global (itf : Interface) (x y z : Int) : Int × Int × Int :=
  (x + itf.offset.1, y + itf.offset.2.1, z + itf.offset.2.2)

/-- Shorthand: `local2global` applied to a whole `(x, y, z, block)` tuple. -/
def globEntry (off : Int × Int × Int) (c : BlockEntry) : BlockEntry :=
  ⟨c.x + off.1, c.y + off.2.1, c.z + off.2.2, c.block⟩

/-- One observed transport `put`.  `blocks x y z entries` is the batched put of
`sendBlocks` (url coordinates plus the buffer serialized line by line in list
order); `block x y z s` is the single-block put of `placeBlock`. -/
inductive Put where
  | blocks (x y z : Int) (entries : List BlockEntry)
  | block (x y z : Int) (s : String)
deriving DecidableEq, Repr

/-- Result of running one `Interface` method: the updated object state, the
transport puts attempted (in order), and the Python return value (`none`
models Python `None`, `some t` a returned response text). -/
structure Step where
  itf : Interface
  puts : List Put
  ret : Option String
deriving DecidableEq, Repr

/-- `Interface.sendBlocks(self, x=0, y=0, z=0, retries=5)`.  Each attempt
serializes the current buffer as the request body; on success
(`tr k = some t`) the buffer is cleared and the response text returned; on
`ConnectionError` it retries itself with `retries - 1` while `retries > 0`,
and with `retries == 0` it falls off the function, returning Python `None`
with the buffer untouched. -/
def sendBlocks (tr : Nat → Option String) (k : Nat) (itf : Interface)
    (x y z : Int) (retries : Nat) : Step :=
  match retries, tr k with
  | _, some t => ⟨{ itf with buffer := [] }, [.blocks x y z itf.buffer], some t⟩
  | 0, none => ⟨itf, [.blocks x y z itf.buffer], none⟩
  | r + 1, none =>
      let rest := sendBlocks tr (k + 1) itf x y z r
      ⟨rest.itf, .blocks x y z itf.buffer :: rest.puts, rest.ret⟩

/-- `Interface.placeBlockBatched`: convert to global coordinates, append to the
buffer, and flush via `sendBlocks()` (defaults: x=y=z=0, retries=5) once
`len(self.buffer) >= limit`; otherwise return `None`. -/
def placeBlockBatched (tr : Nat → Option String) (k : Nat) (itf : Interface)
    (x y z : Int) (s : String) (limit : Nat) : Step :=
  let g := itf.local2global x y z
  let itf2 := { itf with buffer := itf.buffer ++ [⟨g.1, g.2.1, g.2.2, s⟩] }
  if limit ≤ itf2.buffer.length then
    sendBlocks tr k itf2 0 0 0 5
  else
    ⟨itf2, [], none⟩

/-- `Interface.placeBlock`: a single immediate put at the global coordinates;
a `ConnectionError` is swallowed and the string "0" returned. -/
def placeBlock (tr : Nat → Option String) (k : Nat) (itf : Interface)
    (x y z : Int) (s : String) : Step :=
  let g := itf.local2global x y z
  match tr k with
  | some t => ⟨itf, [.block g.1 g.2.1 g.2.2 s], some t⟩
  | none => ⟨itf, [.block g.1 g.2.1 g.2.2 s], some "0"⟩

/-- `Interface.setBlock`: dispatch on the private buffering flag, passing
`self.bufferlimit` as the batch limit. -/
def setBlock (tr : Nat → Option String) (k : Nat) (itf : Interface)
    (x y z : Int) (s : String) : Step :=
  if itf.buffering then
    placeBlockBatched tr k itf x y z s itf.bufferlimit
  else
    placeBlock tr k itf x y z s

/-- The `Buffering` property setter: assign the flag first; when the new value
is falsy, call `self.sendBlocks()` (the setter itself returns `None`). -/
def setBuffering (tr : Nat → Option String) (k : Nat) (itf : Interface)
    (value : Bool) : Step :=
  let itf2 := { itf with buffering := value }
  if value then
    ⟨itf2, [], none⟩
  else
    let out := sendBlocks tr k itf2 0 0 0 5
    ⟨out.itf, out.puts, none⟩

/-- `Interface.toggleBuffer`: `self.Buffering = not self.Buffering`. -/
def toggleBuffer (tr : Nat → Option String) (k : Nat) (itf : Interface) : Step :=
  setBuffering tr k itf (!itf.buffering)

/-- Run a sequence of `setBlock` calls, threading the object state and the
transport attempt counter, and collecting every put attempted. -/
def runSetBlocks (tr : Nat → Option String) (k : Nat) (itf : Interface) :
    List BlockEntry → Interface × List Put
  | [] => (itf, [])
  | c :: rest =>
      let st := setBlock tr k itf c.x c.y c.z c.block
      let out := runSetBlocks tr (k + st.puts.length) st.itf rest
      (out.1, st.puts ++ out.2)

/-- `range(lo, hi + 1)` over integers, as used by the loops of `fill`. -/
def intRange (lo hi : Int) : List Int :=
  (List.range (hi + 1 - lo).toNat).map (fun n => lo + n)

/-- The sequence of `setBlock` argument tuples issued by `Interface.fill`:
both corners are first converted with `local2global`, the cuboid is normalized
by min/max per axis, and `self.setBlock(x, y, z, str)` is called with those
ALREADY-GLOBAL loop coordinates. -/
def fillCalls (itf : Interface) (x1 y1 z1 x2 y2 z2 : Int) (s : String) :
    List BlockEntry :=
  let g1 := itf.local2global x1 y1 z1
  let g2 := itf.local2global x2 y2 z2
  let xlo := min g1.1 g2.1
  let ylo := min g1.2.1 g2.2.1
  let zlo := min g1.2.2 g2.2.2
  let xhi := max g1.1 g2.1
  let yhi := max g1.2.1 g2.2.1
  let zhi := max g1.2.2 g2.2.2
  (intRange xlo xhi).flatMap fun x =>
    (intRange ylo yhi).flatMap fun y =>
      (intRange zlo zhi).map fun z => ⟨x, y, z, s⟩

/-- `Interface.fill`: run `setBlock` over every coordinate of the normalized
cuboid (each `setBlock` applies `local2global` once more itself). -/
def fill (tr : Nat → Option String) (k : Nat) (itf : Interface)
    (x1 y1 z1 x2 y2 z2 : Int) (s : String) : Interface × List Put :=
  runSetBlocks tr k itf (fillCalls itf x1 y1 z1 x2 y2 z2 s)

/-! ## worldLoader.py: `WorldSlice` and its collaborators

Python sequence indexing `lst[i]` resolves an integer index `i` to
`i` when `0 <= i < len`, wraps to `len + i` when `-len <= i < 0`, and raises
`IndexError` otherwise; `resolveIdx` captures exactly that. -/

/-- Python index resolution for a sequence of length `len`: in-range indices
map to themselves, negative indices in `[-len, -1]` wrap to the far end, and
anything else is `none` (an `IndexError`). -/
def resolveIdx (len : Nat) (i : Int) : Option Nat :=
  if 0 ≤ i ∧ i < (len : Int) then some i.toNat
  else if -(len : Int) ≤ i ∧ i < 0 then some (i + len).toNat
  else none

/-- Python `lst[i]` on a Lean list: `none` models the raised `IndexError`. -/
def pyGet {α : Type} (l : List α) (i : Int) : Option α :=
  match resolveIdx l.length i with
  | none => none
  | some n => l.get? n

/-- Modelled from the spec: the `BitArray` packed-integer codec lives in
`gdpc/bitarray.py`, which is not among the given source files; §4.1
(PackedIntArray) defines its decode algorithm, followed here: entries of
`bitsPerEntry` bits are packed low-to-high into 64-bit words without spanning
word boundaries. -/
structure BitArray where
  bitsPerEntry : Nat
  size : Nat
  words : List Nat
deriving DecidableEq, Repr

/-- Modelled from the spec: `decode` of §4.1.  `entriesPerWord = 64 / b`,
`wordIndex = i / entriesPerWord`, `bitOffset = (i mod entriesPerWord) * b`,
result `(words[wordIndex] >> bitOffset) & ((1 << b) - 1)`. -/
def BitArray.getAt (a : BitArray) (i : Nat) : Nat :=
  let epw := 64 / a.bitsPerEntry
  ((a.words.getD (i / epw) 0) >>> ((i % epw) * a.bitsPerEntry)) % 2 ^ a.bitsPerEntry

/-- A palette entry: an NBT compound of which `getBlockAt` reads the
`"Name"` tag (the namespaced block id). -/
structure Compound where
  name : String
deriving DecidableEq, Repr

/-- `worldLoader.CachedSection`: the palette and the packed block-state
indices of one 16x16x16 section. -/
structure CachedSection where
  palette : List Compound
  blockStatesBitArray : BitArray
deriving DecidableEq, Repr

/-- The chunk rect `(x1 // 16, z1 // 16, cxl, czl)` computed by
`WorldSlice.__init__`. -/
structure ChunkRect where
  ox : Int
  oz : Int
  cxl : Nat
  czl : Nat
deriving DecidableEq, Repr

/-- The queryable state a constructed `WorldSlice` holds for the block read
path: `rect = (x1, z1, width, height)`, the derived `chunkRect`, and the
`sections` nest (x, then z, then the 16 y slots; `none` is the Python `None`
left in place when a section had no `BlockStates`).  Heightmap population is
modelled separately by `loadHeightmap` below. -/
structure WorldSlice where
  rect : Int × Int × Nat × Nat
  chunkRect : ChunkRect
  sections : List (List (List (Option CachedSection)))

/-- What `_load_slice` guarantees about the shape of `sections`: an
`x`-list of length `cxl` of `z`-lists of length `czl` of 16 y-slots. -/
def wellFormed (ws : WorldSlice) : Prop :=
  ws.sections.length = ws.chunkRect.cxl ∧
    ∀ col ∈ ws.sections, col.length = ws.chunkRect.czl ∧
      ∀ ys ∈ col, ys.length = 16

instance (ws : WorldSlice) : Decidable (wellFormed ws) := by
  unfold wellFormed; infer_instance

/-- The `self.sections[chunkX][chunkZ][chunkY]` lookup of
`getBlockCompoundAt`, chunk indices resolved exactly as in the source
(`x // 16 - chunkRect[0]` etc., Python floor division).  `none` is the caught
`IndexError`; `some none` is a cached `None` (the empty-section sentinel). -/
def sectionAt (ws : WorldSlice) (x y z : Int) : Option (Option CachedSection) :=
  let chunkX := x.fdiv 16 - ws.chunkRect.ox
  let chunkZ := z.fdiv 16 - ws.chunkRect.oz
  let chunkY := y.fdiv 16
  (pyGet ws.sections chunkX).bind fun xs =>
    (pyGet xs chunkZ).bind fun ys =>
      pyGet ys chunkY

/-- `blockIndex = (y % 16) * 16 * 16 + (z % 16) * 16 + x % 16` (Python `%`,
hence non-negative). -/
def blockIndexOf (x y z : Int) : Nat :=
  ((y.emod 16) * 256 + (z.emod 16) * 16 + x.emod 16).toNat

/-- The failure of `getBlockCompoundAt`: `palette[paletteIndex]` with a
decoded index at or beyond the palette length raises an (uncaught) Python
`IndexError` — this is the role the spec assigns to `CorruptPalette`. -/
inductive WLError where
  | paletteIndexError
deriving DecidableEq, Repr

/-- `WorldSlice.getBlockCompoundAt`: a caught `IndexError` on the sections
lookup returns `None`, a cached `None` section returns `None`, and otherwise
the palette entry at the decoded index is returned — where an out-of-range
decoded index raises (`Except.error`), since only the sections lookup sits in
the `try` block. -/
def getBlockCompoundAt (ws : WorldSlice) (x y z : Int) :
    Except WLError (Option Compound) :=
  match sectionAt ws x y z with
  | none => .ok none
  | some none => .ok none
  | some (some sec) =>
      match sec.palette.get? (sec.blockStatesBitArray.getAt (blockIndexOf x y z)) with
      | none => .error .paletteIndexError
      | some c => .ok (some c)

/-- `WorldSlice.getBlockAt`: `None` compounds become `"minecraft:void_air"`,
otherwise the compound's `"Name"` value is returned. -/
def getBlockAt (ws : WorldSlice) (x y z : Int) : Except WLError String :=
  match getBlockCompoundAt ws x y z with
  | .error e => .error e
  | .ok none => .ok "minecraft:void_air"
  | .ok (some c) => .ok c.name

/-! ### Heightmap population (`_load_slice`)

The destination is a numpy array of shape `(rect[2] + 1, rect[3] + 1)`;
`heightmap[i, j] = v` follows numpy integer indexing: negative indices in
`[-len, -1]` wrap to the far end, other out-of-range indices raise
`IndexError`, which `_load_slice` catches and ignores (`pass`). -/

/-- A heightmap grid, rows indexed by the x axis. -/
abbrev Grid := List (List Int)

/-- One numpy `heightmap[i, j] = v` assignment wrapped in
`try ... except IndexError: pass`: wrapping negative indices, leaving the grid
unchanged when either index raises. -/
def npSet2 (g : Grid) (i j : Int) (v : Int) : Grid :=
  match resolveIdx g.length i with
  | none => g
  | some ii =>
      match g.get? ii with
      | none => g
      | some row =>
          match resolveIdx row.length j with
          | none => g
          | some jj => g.set ii (row.set jj v)

/-- The innermost loop of the heightmap pass, for fixed `cz`:
`for cx in range(16): heightmap[-rectOffset[0] + x*16 + cx,
-rectOffset[1] + z*16 + cz] = bits.getAt(cz*16 + cx)`. -/
def writeChunkRow (ro0 ro1 : Int) (x z cz : Nat) (h : BitArray) (g : Grid) : Grid :=
  (List.range 16).foldl
    (fun g2 (cx : Nat) =>
      npSet2 g2 (-ro0 + (x : Int) * 16 + (cx : Int))
        (-ro1 + (z : Int) * 16 + (cz : Int)) (h.getAt (cz * 16 + cx)))
    g

/-- The two sample loops of the heightmap pass for the chunk at chunk-grid
position `(x, z)`: `for cz in range(16):` run the `cx` row loop. -/
def writeChunkHm (ro0 ro1 : Int) (x z : Nat) (h : BitArray) (g : Grid) : Grid :=
  (List.range 16).foldl
    (fun g1 (cz : Nat) => writeChunkRow ro0 ro1 x z cz h g1)
    g

/-- The heightmap pass of `_load_slice` for one heightmap kind:
`rectOffset = [rect[0] % 16, rect[1] % 16]`, a zero grid of shape
`(rect[2] + 1, rect[3] + 1)`, then for every chunk `(x, z)` of the chunk rect
the 9-bit 256-entry height array of chunk `chunkID = x + z * cxl` (raw words
given per chunk in `chunks`) is written cell by cell. -/
def loadHeightmap (rect : Int × Int × Nat × Nat) (cxl czl : Nat)
    (chunks : List (List Nat)) : Grid :=
  (List.range cxl).foldl
    (fun g x =>
      (List.range czl).foldl
        (fun g z =>
          writeChunkHm (rect.1.emod 16) (rect.2.1.emod 16) x z
            ⟨9, 256, chunks.getD (x + z * cxl) []⟩ g)
        g)
    (List.replicate (rect.2.2.1 + 1) (List.replicate (rect.2.2.2 + 1) 0))

/-! ## Step lemmas for the write path -/

/-- A successful put clears the buffer and returns the response text,
whatever the remaining retry budget. -/
theorem sendBlocks_success (tr : Nat → Option String) (k : Nat) (itf : Interface)
    (x y z : Int) (r : Nat) (t : String) (h : tr k = some t) :
    sendBlocks tr k itf x y z r =
      ⟨{ itf with buffer := [] }, [.blocks x y z itf.buffer], some t⟩ := by
  cases r <;> simp [sendBlocks, h]

/-- A failed put with retries left recurses with the same buffer. -/
theorem sendBlocks_fail_step (tr : Nat → Option String) (k : Nat) (itf : Interface)
    (x y z : Int) (r : Nat) (h : tr k = none) :
    sendBlocks tr k itf x y z (r + 1) =
      ⟨(sendBlocks tr (k + 1) itf x y z r).itf,
       .blocks x y z itf.buffer :: (sendBlocks tr (k + 1) itf x y z r).puts,
       (sendBlocks tr (k + 1) itf x y z r).ret⟩ := by
  simp [sendBlocks, h]

/-- A failed put with no retries left falls off the function: Python `None`
is returned and the buffer is left as it was. -/
theorem sendBlocks_fail_last (tr : Nat → Option String) (k : Nat) (itf : Interface)
    (x y z : Int) (h : tr k = none) :
    sendBlocks tr k itf x y z 0 = ⟨itf, [.blocks x y z itf.buffer], none⟩ := by
  simp [sendBlocks, h]

/-- In Buffered mode, a `setBlock` whose appended entry still leaves the
buffer strictly below the limit makes no transport call. -/
theorem setBlock_buffered_no_flush (tr : Nat → Option String) (k : Nat)
    (itf : Interface) (x y z : Int) (s : String)
    (hb : itf.buffering = true)
    (hlt : itf.buffer.length + 1 < itf.bufferlimit) :
    setBlock tr k itf x y z s =
      ⟨{ itf with buffer := itf.buffer ++ [globEntry itf.offset ⟨x, y, z, s⟩] }, [], none⟩ := by
  have hneg : ¬ itf.bufferlimit ≤ itf.buffer.length + 1 := by omega
  simp [setBlock, hb, placeBlockBatched, Interface.local2global, globEntry, hneg]

/-- In Buffered mode, a `setBlock` whose appended entry reaches the limit
flushes: with the transport succeeding, one batched put carries the whole
buffer and the buffer is cleared. -/
theorem setBlock_buffered_flush (tr : Nat → Option String) (k : Nat)
    (itf : Interface) (x y z : Int) (s : String) (t : String)
    (hb : itf.buffering = true)
    (hge : itf.bufferlimit ≤ itf.buffer.length + 1)
    (ht : tr k = some t) :
    setBlock tr k itf x y z s =
      ⟨{ itf with buffer := [] },
       [.blocks 0 0 0 (itf.buffer ++ [globEntry itf.offset ⟨x, y, z, s⟩])], some t⟩ := by
  simp [setBlock, hb, placeBlockBatched, Interface.local2global, globEntry, hge,
    sendBlocks_success tr k _ 0 0 0 5 t ht]

/-- Running buffered `setBlock` calls that keep the pending count strictly
below the limit makes no transport call and appends the globalized entries in
order. -/
theorem runSetBlocks_under_limit (tr : Nat → Option String) (k : Nat) :
    ∀ (calls : List BlockEntry) (itf : Interface),
      itf.buffering = true →
      itf.buffer.length + calls.length < itf.bufferlimit →
      runSetBlocks tr k itf calls =
        ({ itf with buffer := itf.buffer ++ calls.map (globEntry itf.offset) }, []) := by
  intro calls
  induction calls with
  | nil =>
      intro itf _ _
      simp [runSetBlocks]
  | cons c rest ih =>
      intro itf hb hlt
      obtain ⟨cx, cy, cz, cs⟩ := c
      simp only [List.length_cons] at hlt
      rw [runSetBlocks, setBlock_buffered_no_flush tr k itf cx cy cz cs hb (by omega)]
      simp only [List.length_nil, Nat.add_zero]
      rw [ih { itf with buffer := itf.buffer ++ [globEntry itf.offset ⟨cx, cy, cz, cs⟩] }
        hb (by simp; omega)]
      simp

/-- Running buffered `setBlock` calls whose last call makes the pending count
reach the limit (transport succeeding) yields exactly one batched put holding
every entry in insertion order and clears the buffer. -/
theorem runSetBlocks_reaching_limit (tr : Nat → Option String) (k : Nat) (t : String)
    (ht : tr k = some t) :
    ∀ (calls : List BlockEntry) (itf : Interface),
      itf.buffering = true →
      calls ≠ [] →
      itf.buffer.length + calls.length = itf.bufferlimit →
      runSetBlocks tr k itf calls =
        ({ itf with buffer := [] },
         [.blocks 0 0 0 (itf.buffer ++ calls.map (globEntry itf.offset))]) := by
  intro calls
  induction calls with
  | nil =>
      intro itf _ hne _
      exact absurd rfl hne
  | cons c rest ih =>
      intro itf hb _ hlen
      obtain ⟨cx, cy, cz, cs⟩ := c
      simp only [List.length_cons] at hlen
      rcases rest with _ | ⟨c2, rest2⟩
      · rw [runSetBlocks,
          setBlock_buffered_flush tr k itf cx cy cz cs t hb
            (by simp only [List.length_nil] at hlen; omega) ht]
        simp [runSetBlocks]
      · rw [runSetBlocks, setBlock_buffered_no_flush tr k itf cx cy cz cs hb
          (by simp only [List.length_cons] at hlen ⊢; omega)]
        simp only [List.length_nil, Nat.add_zero]
        rw [ih { itf with buffer := itf.buffer ++ [globEntry itf.offset ⟨cx, cy, cz, cs⟩] }
          hb (List.cons_ne_nil c2 rest2) (by simp only [List.length_append,
            List.length_cons, List.length_nil] at hlen ⊢; omega)]
        simp

/-! ## Claim C1 -/

/-- C1: starting from an empty buffer in Buffered mode with limit
`calls.length`, every strict prefix of the call sequence (pending count below
the limit) makes no transport call and accumulates the globalized entries in
insertion order; the call reaching the limit triggers exactly one flush whose
single put carries all pending entries in insertion order, leaving the
pending sequence empty. -/
theorem c1_buffered_batching (tr : Nat → Option String) (k : Nat)
    (off : Int × Int × Int) (t : String) (calls : List BlockEntry)
    (hne : calls ≠ []) (ht : tr k = some t) :
    (∀ n < calls.length,
      runSetBlocks tr k ⟨off, true, calls.length, []⟩ (calls.take n) =
        (⟨off, true, calls.length, (calls.take n).map (globEntry off)⟩, [])) ∧
    runSetBlocks tr k ⟨off, true, calls.length, []⟩ calls =
      (⟨off, true, calls.length, []⟩, [.blocks 0 0 0 (calls.map (globEntry off))]) := by
  constructor
  · intro n hn
    have h := runSetBlocks_under_limit tr k (calls.take n) ⟨off, true, calls.length, []⟩
      rfl (by simp [List.length_take]; omega)
    simpa using h
  · have h := runSetBlocks_reaching_limit tr k t ht calls ⟨off, true, calls.length, []⟩
      rfl hne (by simp)
    simpa using h

/-- Transport that always succeeds. -/
def trC1 : Nat → Option String := fun _ => some "ok"

/-- Three `setVoxel` argument tuples (the spec's end-to-end scenario with
`limit = 3`). -/
def callsC1 : List BlockEntry := [⟨1, 2, 3, "a"⟩, ⟨4, 5, 6, "b"⟩, ⟨7, 8, 9, "c"⟩]

/-- Witness for C1: with limit 3, the 2-call prefix makes no transport call,
and the third call issues exactly one put with all three entries in order,
leaving the buffer empty. -/
theorem c1_buffered_batching_witness :
    runSetBlocks trC1 0 ⟨(0, 0, 0), true, callsC1.length, []⟩ (callsC1.take 2) =
      (⟨(0, 0, 0), true, callsC1.length, (callsC1.take 2).map (globEntry (0, 0, 0))⟩, []) ∧
    runSetBlocks trC1 0 ⟨(0, 0, 0), true, callsC1.length, []⟩ callsC1 =
      (⟨(0, 0, 0), true, callsC1.length, []⟩,
       [.blocks 0 0 0 (callsC1.map (globEntry (0, 0, 0)))]) :=
  ⟨(c1_buffered_batching trC1 0 (0, 0, 0) "ok" callsC1 (by decide) rfl).1 2 (by decide),
   (c1_buffered_batching trC1 0 (0, 0, 0) "ok" callsC1 (by decide) rfl).2⟩

/-! ## Claim C10 -/

/-- C10: every argument combination passed to the `Interface` constructor
yields an object in Direct (unbuffered) mode with buffer limit 4096 and an
empty pending sequence — the `buffering` and `bufferlimit` arguments are
ignored by `__init__`. -/
theorem c10_ctor_ignores_args (off : Int × Int × Int) (b : Bool) (l : Nat) :
    mkInterface off b l = ⟨off, false, 4096, []⟩ := rfl

/-! ## Claim C2 -/

/-- C2: a flush with retry budget 5 whose transport put fails with a
connection error on exactly the first two attempts and succeeds on the third
succeeds on that third attempt; the transport observes exactly 3 put
attempts, each carrying the same payload (the unchanged pending buffer, in
order), and the pending sequence is cleared afterwards. -/
theorem c2_flush_retry_succeeds_third (itf : Interface) (tr : Nat → Option String)
    (k : Nat) (t : String)
    (h0 : tr k = none) (h1 : tr (k + 1) = none) (h2 : tr (k + 2) = some t) :
    sendBlocks tr k itf 0 0 0 5 =
      ⟨{ itf with buffer := [] },
       [.blocks 0 0 0 itf.buffer, .blocks 0 0 0 itf.buffer, .blocks 0 0 0 itf.buffer],
       some t⟩ := by
  simp [sendBlocks, h0, h1, h2]

/-- Transport that fails on attempts 0 and 1 and succeeds from attempt 2 on. -/
def trC2 : Nat → Option String := fun n => if n < 2 then none else some "ok"

/-- A buffered interface holding two pending entries. -/
def itfC2 : Interface := ⟨(0, 0, 0), true, 4096, [⟨1, 2, 3, "a"⟩, ⟨4, 5, 6, "b"⟩]⟩

/-- Witness for C2 at a concrete transport and buffer. -/
theorem c2_flush_retry_succeeds_third_witness :
    sendBlocks trC2 0 itfC2 0 0 0 5 =
      ⟨{ itfC2 with buffer := [] },
       [.blocks 0 0 0 itfC2.buffer, .blocks 0 0 0 itfC2.buffer, .blocks 0 0 0 itfC2.buffer],
       some "ok"⟩ :=
  c2_flush_retry_succeeds_third itfC2 trC2 0 "ok" rfl rfl rfl

/-! ## Claim C3 -/

/-- A transport on which every put attempt raises `ConnectionError`. -/
def trFailC3 : Nat → Option String := fun _ => none

/-- A buffered interface holding one pending entry. -/
def itfC3 : Interface := ⟨(0, 0, 0), true, 4096, [⟨1, 2, 3, "minecraft:stone"⟩]⟩

/-- C3 counterexample: with every transport attempt failing, the flush with
retry budget 5 leaves the buffer uncleared as the claim says, but surfaces no
`FlushFailed` (nor any) error: after 6 attempts it returns Python `None`
(`ret = none`, the same value `placeBlockBatched` returns when no flush was
needed at all), i.e. it returns silently. -/
theorem c3_counterexample :
    (sendBlocks trFailC3 0 itfC3 0 0 0 5).ret = none ∧
    (sendBlocks trFailC3 0 itfC3 0 0 0 5).itf = itfC3 ∧
    (sendBlocks trFailC3 0 itfC3 0 0 0 5).puts.length = 6 := by
  decide

/-- C3 (amended): when every transport put attempt fails with a connection
error, a flush with retry budget `r` makes `r + 1` attempts (each resending
the identical pending buffer), then returns silently with Python `None` — no
`FlushFailed` error reaches the caller — and the pending buffer is not
cleared. -/
theorem c3_amended_exhausted_retries_silent (tr : Nat → Option String)
    (hfail : ∀ j, tr j = none) :
    ∀ (r k : Nat) (itf : Interface),
      sendBlocks tr k itf 0 0 0 r =
        ⟨itf, List.replicate (r + 1) (.blocks 0 0 0 itf.buffer), none⟩ := by
  intro r
  induction r with
  | zero =>
      intro k itf
      rw [sendBlocks_fail_last tr k itf 0 0 0 (hfail k)]
      simp
  | succ n ih =>
      intro k itf
      rw [sendBlocks_fail_step tr k itf 0 0 0 n (hfail k), ih (k + 1) itf]
      simp [List.replicate_succ]

/-- Witness for the amended C3 at a concrete transport, budget and buffer. -/
theorem c3_amended_exhausted_retries_silent_witness :
    sendBlocks trFailC3 7 itfC3 0 0 0 2 =
      ⟨itfC3, List.replicate 3 (.blocks 0 0 0 itfC3.buffer), none⟩ :=
  c3_amended_exhausted_retries_silent trFailC3 (fun _ => rfl) 2 7 itfC3

/-! ## Claim C8 -/

/-- C8: switching buffering off (directly or through `toggleBuffer`) performs
the implicit flush: the single batched put carries every pending entry, the
buffer ends empty and the mode ends Direct, so no pending write is lost; the
statement holds for an empty buffer as well (the put then carries `[]` and
completes without error). -/
theorem c8_exit_buffered_flushes (itf : Interface) (tr : Nat → Option String)
    (k : Nat) (t : String) (ht : tr k = some t) :
    setBuffering tr k itf false =
      ⟨⟨itf.offset, false, itf.bufferlimit, []⟩, [.blocks 0 0 0 itf.buffer], none⟩ ∧
    (itf.buffering = true → toggleBuffer tr k itf = setBuffering tr k itf false) := by
  obtain ⟨off, bg, lim, buf⟩ := itf
  refine ⟨?_, ?_⟩
  · simp [setBuffering, sendBlocks_success tr k _ 0 0 0 5 t ht]
  · intro h
    simp only at h
    simp [toggleBuffer, h]

/-- Transport that always succeeds. -/
def trC8 : Nat → Option String := fun _ => some "ok"

/-- A buffered interface with an empty pending sequence. -/
def itfC8 : Interface := ⟨(0, 0, 0), true, 7, []⟩

/-- Witness for C8: exiting buffered mode with zero pending entries still
issues the (empty) flush put and completes. -/
theorem c8_exit_buffered_flushes_witness :
    setBuffering trC8 0 itfC8 false =
      ⟨⟨itfC8.offset, false, itfC8.bufferlimit, []⟩, [.blocks 0 0 0 itfC8.buffer], none⟩ ∧
    (itfC8.buffering = true → toggleBuffer trC8 0 itfC8 = setBuffering trC8 0 itfC8 false) :=
  c8_exit_buffered_flushes itfC8 trC8 0 "ok" rfl

/-! ## Claim C6 -/

/-- Transport that always succeeds with response "1". -/
def trC6 : Nat → Option String := fun _ => some "1"

/-- A Direct-mode interface with offset (1, 0, 0). -/
def itfC6 : Interface := ⟨(1, 0, 0), false, 4096, []⟩

/-- C6 (code bug, failing input): with offset (1,0,0) in Direct mode,
`fill(0,0,0, 0,0,0, "minecraft:stone")` issues its single write at global
(2,0,0): `fill` converts the corners to global coordinates and then calls
`setBlock` with those already-global loop coordinates, and `setBlock` →
`placeBlock` applies `local2global` a second time — the offset is added
twice, where the spec (and the class's own "all function parameters are in
local coordinates" contract) requires it be applied exactly once, which would
give (1,0,0).  The write count itself does equal the cuboid volume (second
conjunct: a 2x2x2 cuboid issues 8 writes). -/
theorem c6_fill_double_offset :
    fill trC6 0 itfC6 0 0 0 0 0 0 "minecraft:stone" =
      (itfC6, [.block 2 0 0 "minecraft:stone"]) ∧
    (fill trC6 0 itfC6 0 0 0 1 1 1 "minecraft:stone").2.length = 8 := by
  decide

/-! ## Index-resolution lemmas -/

/-- Indices beyond either end of the wrap range resolve to `IndexError`. -/
theorem resolveIdx_oob (len : Nat) (i : Int)
    (h : (len : Int) ≤ i ∨ i < -(len : Int)) : resolveIdx len i = none := by
  unfold resolveIdx
  rcases h with h | h <;> rw [if_neg (by omega), if_neg (by omega)]

/-- Python indexing raises `IndexError` outside `[-len, len)`. -/
theorem pyGet_oob {α : Type} (l : List α) (i : Int)
    (h : (l.length : Int) ≤ i ∨ i < -(l.length : Int)) : pyGet l i = none := by
  unfold pyGet
  rw [resolveIdx_oob _ _ h]

/-! ## Claim C4 -/

/-- A cached section whose only palette entry is stone (all packed indices
decode to 0). -/
def secStone : CachedSection := ⟨[⟨"minecraft:stone"⟩], ⟨4, 4096, []⟩⟩

/-- A cached section whose only palette entry is dirt. -/
def secDirt : CachedSection := ⟨[⟨"minecraft:dirt"⟩], ⟨4, 4096, []⟩⟩

/-- A well-formed two-chunk slice: chunk (0,0) holds stone, chunk (1,0) holds
dirt, every other section empty. -/
def wsC4 : WorldSlice :=
  ⟨(0, 0, 32, 16), ⟨0, 0, 2, 1⟩,
   [[some secStone :: List.replicate 15 none],
    [some secDirt :: List.replicate 15 none]]⟩

/-- C4 counterexample: on the well-formed slice `wsC4`, the query at
`x = -1` resolves to chunk index `-1`, outside the cached rect `[0, 2)`; the
claim requires an `OutOfBounds` failure, but the code's Python list indexing
wraps `-1` to the LAST cached chunk and the query returns `ok "minecraft:dirt"`
— the block descriptor of the other cached chunk (the same answer the
legitimately in-rect query at `x = 31` gets), with no error raised. -/
theorem c4_counterexample :
    wellFormed wsC4 ∧
    ((-1 : Int).fdiv 16 - wsC4.chunkRect.ox < 0) ∧
    getBlockAt wsC4 (-1) 0 0 = .ok "minecraft:dirt" ∧
    getBlockAt wsC4 31 0 0 = .ok "minecraft:dirt" :=
  ⟨by decide, by decide, rfl, rfl⟩

/-- C4 (amended): the out-of-rect query never raises; when either resolved
chunk index — x or z — is at or beyond the corresponding cached chunk count
(or below minus that count) the caught `IndexError` makes the query return
the void identifier `"minecraft:void_air"` rather than an `OutOfBounds`
error, while resolved indices in `[-count, -1]` wrap around Python-style and
can return a descriptor from another cached chunk (the counterexample
exhibits this). -/
theorem c4_amended_oob_returns_void (ws : WorldSlice) (x y z : Int)
    (hwf : wellFormed ws)
    (hout : ((ws.chunkRect.cxl : Int) ≤ x.fdiv 16 - ws.chunkRect.ox ∨
             x.fdiv 16 - ws.chunkRect.ox < -(ws.chunkRect.cxl : Int)) ∨
            ((ws.chunkRect.czl : Int) ≤ z.fdiv 16 - ws.chunkRect.oz ∨
             z.fdiv 16 - ws.chunkRect.oz < -(ws.chunkRect.czl : Int))) :
    getBlockAt ws x y z = .ok "minecraft:void_air" := by
  have h2 : sectionAt ws x y z = none := by
    rcases hout with hx | hz
    · have hlen : (ws.sections.length : Int) = (ws.chunkRect.cxl : Int) := by
        exact_mod_cast congrArg Nat.cast hwf.1
      have h1 : pyGet ws.sections (x.fdiv 16 - ws.chunkRect.ox) = none := by
        apply pyGet_oob
        rw [hlen]
        exact hx
      simp [sectionAt, h1]
    · unfold sectionAt
      cases hcol : pyGet ws.sections (x.fdiv 16 - ws.chunkRect.ox) with
      | none => simp [hcol]
      | some col =>
          have hmem : col ∈ ws.sections := by
            unfold pyGet at hcol
            rcases hres : resolveIdx ws.sections.length (x.fdiv 16 - ws.chunkRect.ox) with
              _ | n
            · rw [hres] at hcol
              exact absurd hcol (by simp)
            · rw [hres] at hcol
              exact List.get?_mem hcol
          have hclen : (col.length : Int) = (ws.chunkRect.czl : Int) := by
            exact_mod_cast congrArg Nat.cast ((hwf.2 col hmem).1)
          have hznone : pyGet col (z.fdiv 16 - ws.chunkRect.oz) = none := by
            apply pyGet_oob
            rw [hclen]
            exact hz
          simp [hcol, hznone]
  simp [getBlockAt, getBlockCompoundAt, h2]

/-- Witness for the amended C4: on `wsC4` the query at `x = 32` (resolved
chunk x-index 2, one past the cached rect) and the query at `z = 16`
(resolved chunk z-index 1, one past the single cached z row) both return the
void identifier. -/
theorem c4_amended_oob_returns_void_witness :
    wellFormed wsC4 ∧
    getBlockAt wsC4 32 0 0 = .ok "minecraft:void_air" ∧
    getBlockAt wsC4 0 0 16 = .ok "minecraft:void_air" :=
  ⟨by decide,
   c4_amended_oob_returns_void wsC4 32 0 0 (by decide) (Or.inl (by decide)),
   c4_amended_oob_returns_void wsC4 0 0 16 (by decide) (Or.inr (by decide))⟩

/-! ## Claim C5 -/

/-- C5: when the packed index array decodes, at the queried position, to a
palette index at or beyond the palette length, the block query fails with the
palette-index error (the source's uncaught `IndexError` on
`palette[paletteIndex]`, the role the spec names `CorruptPalette`) — it never
returns a valid-looking descriptor and never clamps. -/
theorem c5_corrupt_palette_errors (ws : WorldSlice) (x y z : Int)
    (sec : CachedSection)
    (hsec : sectionAt ws x y z = some (some sec))
    (hidx : sec.palette.length ≤ sec.blockStatesBitArray.getAt (blockIndexOf x y z)) :
    getBlockCompoundAt ws x y z = .error .paletteIndexError ∧
    getBlockAt ws x y z = .error .paletteIndexError := by
  have hget : sec.palette[sec.blockStatesBitArray.getAt (blockIndexOf x y z)]? = none :=
    List.getElem?_eq_none hidx
  refine ⟨?_, ?_⟩
  · simp [getBlockCompoundAt, hsec, hget]
  · simp [getBlockAt, getBlockCompoundAt, hsec, hget]

/-- A section whose packed indices decode to 1 at block index 0 while the
palette has a single entry: index 1 is out of palette range. -/
def secBad : CachedSection := ⟨[⟨"minecraft:stone"⟩], ⟨4, 4096, [1]⟩⟩

/-- A one-chunk slice caching `secBad` at section y = 0. -/
def wsC5 : WorldSlice :=
  ⟨(0, 0, 16, 16), ⟨0, 0, 1, 1⟩, [[some secBad :: List.replicate 15 none]]⟩

/-- Witness for C5 at the concrete corrupt section. -/
theorem c5_corrupt_palette_errors_witness :
    getBlockCompoundAt wsC5 0 0 0 = .error .paletteIndexError ∧
    getBlockAt wsC5 0 0 0 = .error .paletteIndexError :=
  c5_corrupt_palette_errors wsC5 0 0 0 secBad (by decide) (by decide)

/-! ## Claim C9 -/

/-- C9: at any coordinate whose resolved section is the cached `None`
sentinel (a section that carried no block-state data and was left absent
during construction), the query returns the implicit void identifier
`"minecraft:void_air"` without erroring; the conclusion is independent of
every palette and packed array in the slice, since the sentinel branch
returns before the codec or the palette is consulted. -/
theorem c9_empty_section_void (ws : WorldSlice) (x y z : Int)
    (hsec : sectionAt ws x y z = some none) :
    getBlockCompoundAt ws x y z = .ok none ∧
    getBlockAt ws x y z = .ok "minecraft:void_air" := by
  refine ⟨?_, ?_⟩ <;> simp [getBlockAt, getBlockCompoundAt, hsec]

/-- A one-chunk slice all of whose sections are the `None` sentinel. -/
def wsC9 : WorldSlice :=
  ⟨(0, 0, 16, 16), ⟨0, 0, 1, 1⟩, [[List.replicate 16 none]]⟩

/-- Witness for C9 on the all-sentinel slice. -/
theorem c9_empty_section_void_witness :
    getBlockCompoundAt wsC9 3 40 5 = .ok none ∧
    getBlockAt wsC9 3 40 5 = .ok "minecraft:void_air" :=
  c9_empty_section_void wsC9 3 40 5 (by decide)

/-! ## Claim C7 -/

/-- The 9-bit, 256-entry height array of the counterexample chunk: value 10
at sample index 10 (word 1 holds `10 <<< 27`), value 0 everywhere else. -/
def bArrC7 : BitArray := ⟨9, 256, [0, 1342177280]⟩

/-- The zero-initialised 6-row x 17-column height grid of a region with
`rect = (15, 0, 5, 16)`. -/
def gridInitC7 : Grid := List.replicate 6 (List.replicate 17 0)

/-- The populated grid: the single nonzero sample landed in cell (1, 0). -/
def gridFinC7 : Grid :=
  [List.replicate 17 0, 10 :: List.replicate 16 0, List.replicate 17 0,
   List.replicate 17 0, List.replicate 17 0, List.replicate 17 0]

set_option maxRecDepth 4000 in
/-- C7 counterexample: region origin x = 15 (so `rectOffset = 15`), width 5
(grid of 6 rows), one chunk whose 9-bit height array holds 10 at sample index
10 (`cx = 10`, `cz = 0`) and 0 elsewhere.  That sample's computed destination
row is `-15 + 0*16 + 10 = -5`, outside the 6-row grid, so per the claim it
must be discarded and modify nothing — but numpy wraps `-5` to row 1, and no
in-bounds sample ever targets row 1 (that would need `cx = 16`), so after
population cell (1, 0) holds the discarded sample's value 10 instead of the
initial 0. -/
theorem c7_counterexample :
    (loadHeightmap (15, 0, 5, 16) 1 1 [[0, 1342177280]]).length = 6 ∧
    ((loadHeightmap (15, 0, 5, 16) 1 1 [[0, 1342177280]]).getD 1 []).get? 0 = some 10 ∧
    (BitArray.mk 9 256 [0, 1342177280]).getAt 10 = 10 ∧
    ((-15 : Int) + 0 * 16 + 10 < 0) := by
  have hload : loadHeightmap (15, 0, 5, 16) 1 1 [[0, 1342177280]] =
      writeChunkHm 15 0 0 0 bArrC7 gridInitC7 := by
    rw [loadHeightmap]
    simp only [List.range_succ, List.range_zero, List.nil_append, List.foldl_cons,
      List.foldl_nil]
    rfl
  have hr16 : List.range 16 = [0, 1, 2, 3, 4, 5, 6, 7, 8, 9, 10, 11, 12, 13, 14, 15] := by
    decide
  have hrows : writeChunkHm 15 0 0 0 bArrC7 gridInitC7 =
      writeChunkRow 15 0 0 0 15 bArrC7 (writeChunkRow 15 0 0 0 14 bArrC7
        (writeChunkRow 15 0 0 0 13 bArrC7 (writeChunkRow 15 0 0 0 12 bArrC7
          (writeChunkRow 15 0 0 0 11 bArrC7 (writeChunkRow 15 0 0 0 10 bArrC7
            (writeChunkRow 15 0 0 0 9 bArrC7 (writeChunkRow 15 0 0 0 8 bArrC7
              (writeChunkRow 15 0 0 0 7 bArrC7 (writeChunkRow 15 0 0 0 6 bArrC7
                (writeChunkRow 15 0 0 0 5 bArrC7 (writeChunkRow 15 0 0 0 4 bArrC7
                  (writeChunkRow 15 0 0 0 3 bArrC7 (writeChunkRow 15 0 0 0 2 bArrC7
                    (writeChunkRow 15 0 0 0 1 bArrC7 (writeChunkRow 15 0 0 0 0 bArrC7
                      gridInitC7))))))))))))))) := by
    rw [writeChunkHm, hr16]
    simp only [List.foldl_cons, List.foldl_nil]
  have h0 : writeChunkRow 15 0 0 0 0 bArrC7 gridInitC7 = gridFinC7 := by decide
  have h1 : writeChunkRow 15 0 0 0 1 bArrC7 gridFinC7 = gridFinC7 := by decide
  have h2 : writeChunkRow 15 0 0 0 2 bArrC7 gridFinC7 = gridFinC7 := by decide
  have h3 : writeChunkRow 15 0 0 0 3 bArrC7 gridFinC7 = gridFinC7 := by decide
  have h4 : writeChunkRow 15 0 0 0 4 bArrC7 gridFinC7 = gridFinC7 := by decide
  have h5 : writeChunkRow 15 0 0 0 5 bArrC7 gridFinC7 = gridFinC7 := by decide
  have h6 : writeChunkRow 15 0 0 0 6 bArrC7 gridFinC7 = gridFinC7 := by decide
  have h7 : writeChunkRow 15 0 0 0 7 bArrC7 gridFinC7 = gridFinC7 := by decide
  have h8 : writeChunkRow 15 0 0 0 8 bArrC7 gridFinC7 = gridFinC7 := by decide
  have h9 : writeChunkRow 15 0 0 0 9 bArrC7 gridFinC7 = gridFinC7 := by decide
  have h10 : writeChunkRow 15 0 0 0 10 bArrC7 gridFinC7 = gridFinC7 := by decide
  have h11 : writeChunkRow 15 0 0 0 11 bArrC7 gridFinC7 = gridFinC7 := by decide
  have h12 : writeChunkRow 15 0 0 0 12 bArrC7 gridFinC7 = gridFinC7 := by decide
  have h13 : writeChunkRow 15 0 0 0 13 bArrC7 gridFinC7 = gridFinC7 := by decide
  have h14 : writeChunkRow 15 0 0 0 14 bArrC7 gridFinC7 = gridFinC7 := by decide
  have h15 : writeChunkRow 15 0 0 0 15 bArrC7 gridFinC7 = gridFinC7 := by decide
  rw [hload, hrows, h0, h1, h2, h3, h4, h5, h6, h7, h8, h9, h10, h11, h12, h13,
    h14, h15]
  decide

/-- C7 (amended): on either axis, a height sample whose computed destination
index is at or beyond the grid size on that axis, or below minus that size,
is discarded without error and modifies no cell; but a negative destination
index in `[-size, -1]` is NOT discarded — numpy indexing wraps it to
`size + index`, modifying that cell exactly as an in-bounds write there
would.  Parts 1 and 2 state this for the row index `i` (row count
`g.length`); part 3 states it for the column index `j` once the row index
resolves to a row (the column-axis size is that row's length). -/
theorem c7_amended_discard_and_wrap (g : Grid) (i j v : Int) :
    ((g.length : Int) ≤ i ∨ i < -(g.length : Int) → npSet2 g i j v = g) ∧
    (-(g.length : Int) ≤ i → i < 0 → npSet2 g i j v = npSet2 g (i + g.length) j v) ∧
    (∀ (ii : Nat) (row : List Int),
      resolveIdx g.length i = some ii → g.get? ii = some row →
      ((row.length : Int) ≤ j ∨ j < -(row.length : Int) → npSet2 g i j v = g) ∧
      (-(row.length : Int) ≤ j → j < 0 →
        npSet2 g i j v = npSet2 g i (j + row.length) v)) := by
  refine ⟨?_, ?_, ?_⟩
  · intro h
    unfold npSet2
    rw [resolveIdx_oob _ _ h]
  · intro h1 h2
    have e1 : resolveIdx g.length i = some (i + g.length).toNat := by
      unfold resolveIdx
      rw [if_neg (by omega), if_pos (by omega)]
    have e2 : resolveIdx g.length (i + g.length) = some (i + g.length).toNat := by
      unfold resolveIdx
      rw [if_pos (by omega)]
    unfold npSet2
    rw [e1, e2]
  · intro ii row hii hrow
    constructor
    · intro hj
      unfold npSet2
      simp only [hii, hrow, resolveIdx_oob _ _ hj]
    · intro hj1 hj2
      have e1 : resolveIdx row.length j = some (j + row.length).toNat := by
        unfold resolveIdx
        rw [if_neg (by omega), if_pos (by omega)]
      have e2 : resolveIdx row.length (j + row.length) = some (j + row.length).toNat := by
        unfold resolveIdx
        rw [if_pos (by omega)]
      unfold npSet2
      simp only [hii, hrow, e1, e2]

/-- Witness for the amended C7, exercising all four parts: a far-out row
index leaves the grid unchanged; row index -1 writes the same grid as the
wrapped row index 0; with the row resolved, a far-out column index leaves the
grid unchanged; and column index -1 writes the same grid as the wrapped
column index 1. -/
theorem c7_amended_discard_and_wrap_witness :
    npSet2 [[0]] 5 0 7 = [[0]] ∧
    npSet2 [[0, 1]] (-1) 0 7 = npSet2 [[0, 1]] 0 0 7 ∧
    npSet2 [[0, 1]] 0 5 7 = [[0, 1]] ∧
    npSet2 [[0, 1]] 0 (-1) 7 = npSet2 [[0, 1]] 0 1 7 :=
  ⟨(c7_amended_discard_and_wrap [[0]] 5 0 7).1 (Or.inl (by decide)),
   (c7_amended_discard_and_wrap [[0, 1]] (-1) 0 7).2.1 (by decide) (by decide),
   ((c7_amended_discard_and_wrap [[0, 1]] 0 5 7).2.2 0 [0, 1]
     (by decide) (by decide)).1 (Or.inl (by decide)),
   ((c7_amended_discard_and_wrap [[0, 1]] 0 (-1) 7).2.2 0 [0, 1]
     (by decide) (by decide)).2 (by decide) (by decide)⟩

end Gdpc
